import Mathlib

/-!
Shallow embedding of `src/camera_runtime/src/camera_node.py` (the video
capture node runtime) and proofs about the behaviour of its capture
arbiter (`_enter_live` / `_exit_live`), HTTP control surface
(`LiveHandler.do_POST` / `do_GET`), upload pipeline (`do_upload`,
`uploader_thread_fn`, `retry_scanner_thread_fn`), recording
(`record_clip`), trigger loop (`main`), and frame bus (`_FrameBus`).

External collaborators (the Picamera2 device, the network, the clock)
are modelled by explicit environment records stating which calls
succeed; file-system effects are modelled as explicit state.
-/

namespace CameraNode

/-- The two operating modes of the node: `MODE` in the source is the
string `"RECORD"` or `"LIVE"`. -/
inductive Mode where
  | RECORD
  | LIVE
deriving DecidableEq, Repr

/-- LED display patterns accepted by `LedController.set_mode`. -/
inductive LedMode where
  | idle
  | recording
  | error
  | live
deriving DecidableEq, Repr

/-- Operations issued to the Picamera2 device collaborator.  A trace of
these is returned by the mode-transition embeddings so that theorems can
speak about which device reconfigurations a call attempted. -/
inductive DeviceOp where
  | stop
  | configureLive
  | configureRecord
  | start
  | startEncode
  | stopEncode
deriving DecidableEq, Repr

/-- The two configurations applied to the Picamera2 device:
`record_config` and the `live_config` built inside `_enter_live`. -/
inductive DevConfig where
  | recordCfg
  | liveCfg
deriving DecidableEq, Repr

/-- Observable state of the physical capture device: either a known
configuration with its running/encoding status, or the unknown state
left behind when an exception interrupted a reconfiguration sequence
partway (the device is then unusable until externally restored). -/
inductive DevState where
  | configured (cfg : DevConfig) (running : Bool) (encoding : Bool)
  | unknownAfterFailure
deriving DecidableEq, Repr

/-- The device stopped-then-reconfigured-then-restarted for Record. -/
def recordRunning : DevState := DevState.configured DevConfig.recordCfg true false

/-- The device running the Live configuration with the MJPEG encode
session active. -/
def liveEncoding : DevState := DevState.configured DevConfig.liveCfg true true

/-- The shared mutable state touched by `_enter_live` / `_exit_live` /
the HTTP handlers: the globals `MODE`, `LIVE_LAST_ERROR`, the LED
controller's mode, whether `QUEUE_DIR` currently holds any `*.mp4`
file (the value of `any(QUEUE_DIR.glob('*.mp4'))`), and the device. -/
structure SysState where
  mode : Mode
  ledMode : LedMode
  queueNonEmpty : Bool
  liveLastError : String
  dev : DevState
deriving DecidableEq, Repr

/-- Environment for `_enter_live`: whether the unguarded configuration
block `live_config = picam2.create_video_configuration(...);
picam2.configure(live_config)` (lines 484-489, outside any `try`)
succeeds, whether the guarded block `picam2.start(); LIVE_ENCODER =
MJPEGEncoder(...); picam2.start_recording(...)` succeeds, and whether
the recovery block `picam2.stop(); picam2.configure(record_config);
...; picam2.start()` in its `except` arm succeeds. -/
structure EnterEnv where
  configureOk : Bool
  startOk : Bool
  recoverOk : Bool
deriving DecidableEq, Repr

/-- How an `_enter_live` call terminates: it returns a Boolean, or an
exception escapes it uncaught (possible only from the unguarded
configuration block at lines 484-489 — every other device call inside
it is wrapped in `try`/`except`). -/
inductive EnterResult where
  | returned (ok : Bool)
  | raised
deriving DecidableEq, Repr

/-- Environment for `_exit_live`: whether the first
stop/reconfigure/restart block succeeds, and whether the retry block in
its `except` arm succeeds. -/
structure ExitEnv where
  firstOk : Bool
  retryOk : Bool
deriving DecidableEq, Repr

/-- `led.set_mode("error" if any(QUEUE_DIR.glob('*.mp4')) else "idle")`. -/
def ledAfterRecord (queueNonEmpty : Bool) : LedMode :=
  if queueNonEmpty then LedMode.error else LedMode.idle

/-- Embedding of `_enter_live` (camera_node.py lines 466-522).  Returns
how the call terminated, the state after it, and the trace of device
operations attempted.  If `MODE == "LIVE"` it returns `True`
immediately, touching nothing.  Otherwise it stops the device
(exceptions swallowed) and runs the unguarded configuration block
(lines 484-489): an exception there propagates out of `_enter_live`
uncaught — no rollback runs, no value is returned, `MODE`, the LED and
`LIVE_LAST_ERROR` are untouched, and the device is left stopped or
misconfigured.  When configuration succeeds, the guarded start block
runs; on its failure the call records `LIVE_LAST_ERROR`, attempts the
rollback to the record configuration, and returns `False` without
changing `MODE` or the LED mode. -/
def enterLive (env : EnterEnv) (s : SysState) : EnterResult × SysState × List DeviceOp :=
  if s.mode = Mode.LIVE then
    (EnterResult.returned true, s, [])
  else
    let ops := [DeviceOp.stop, DeviceOp.configureLive]
    if !env.configureOk then
      (EnterResult.raised, { s with dev := DevState.unknownAfterFailure }, ops)
    else if env.startOk then
      (EnterResult.returned true,
       { s with mode := Mode.LIVE, liveLastError := "", ledMode := LedMode.live,
                dev := liveEncoding },
       ops ++ [DeviceOp.start, DeviceOp.startEncode])
    else
      -- `LIVE_LAST_ERROR = f"start_recording failed: {e}"`; the recovery
      -- block attempts stop/configure(record_config)/start whether or not
      -- it completes (the trace records attempted operations).
      let s1 := { s with liveLastError := "start_recording failed" }
      let ops2 := ops ++ [DeviceOp.start, DeviceOp.stop, DeviceOp.configureRecord, DeviceOp.start]
      if env.recoverOk then
        (EnterResult.returned false, { s1 with dev := recordRunning }, ops2)
      else
        (EnterResult.returned false, { s1 with dev := DevState.unknownAfterFailure }, ops2)

/-- Embedding of `_exit_live` (camera_node.py lines 524-566).  If
`MODE == "RECORD"` it returns `True` immediately.  Otherwise the first
block stops the encode session, stops and reconfigures the device and
restarts it; on success `MODE = "RECORD"` and the LED shows
error-or-idle by retry-queue occupancy.  On failure the LED is set to
`error`, and after a delay the same reconfiguration is retried once; if
the retry also fails the call returns `False` with `MODE` still
`"LIVE"` and the LED left at `error`. -/
def exitLive (env : ExitEnv) (s : SysState) : Bool × SysState × List DeviceOp :=
  if s.mode = Mode.RECORD then
    (true, s, [])
  else
    let ops := [DeviceOp.stopEncode, DeviceOp.stop, DeviceOp.configureRecord, DeviceOp.start]
    if env.firstOk then
      (true,
       { s with mode := Mode.RECORD, ledMode := ledAfterRecord s.queueNonEmpty,
                dev := recordRunning },
       ops)
    else
      -- `led.set_mode("error"); time.sleep(1.5)` then retry once.
      let s1 := { s with ledMode := LedMode.error }
      let ops2 := ops ++ [DeviceOp.stop, DeviceOp.configureRecord, DeviceOp.start]
      if env.retryOk then
        (true,
         { s1 with mode := Mode.RECORD, ledMode := ledAfterRecord s.queueNonEmpty,
                   dev := recordRunning },
         ops2)
      else
        (false, { s1 with dev := DevState.unknownAfterFailure }, ops2)

/-- A JSON body produced by `_json_response` for the control endpoints:
HTTP status, the `ok` field, and the optional `error` / `state` fields. -/
structure HttpResp where
  status : Nat
  ok : Bool
  err : Option String
  state : Option String
deriving DecidableEq, Repr

/-- `LIVE_LAST_ERROR or "failed to enter LIVE"` (Python `or` substitutes
the fallback when the string is empty). -/
def orDefault (s fallback : String) : String :=
  if s = "" then fallback else s

/-- Embedding of `LiveHandler.do_POST` (camera_node.py lines 595-605):
dispatch on the request path, run the transition, and build the JSON
response exactly as the source does.  When `_enter_live` raises, the
exception escapes `do_POST` into the `http.server` machinery: no JSON
body is produced and the connection is dropped, modelled as `none`. -/
def do_POST (path : String) (eEnv : EnterEnv) (xEnv : ExitEnv) (s : SysState) :
    Option HttpResp × SysState :=
  if path = "/api/live/start" then
    let r := enterLive eEnv s
    match r.1 with
    | EnterResult.returned true =>
        (some { status := 200, ok := true, err := none, state := some "LIVE" }, r.2.1)
    | EnterResult.returned false =>
        (some { status := 500, ok := false,
                err := some (orDefault r.2.1.liveLastError "failed to enter LIVE"),
                state := none }, r.2.1)
    | EnterResult.raised => (none, r.2.1)
  else if path = "/api/live/stop" then
    let r := exitLive xEnv s
    (some { status := 200, ok := true, err := none,
            state := some (if r.1 then "RECORD" else "LIVE") }, r.2.1)
  else
    (some { status := 404, ok := false, err := some "not found", state := none }, s)

/-- Number of mode changes along a trajectory of observed modes. -/
def modeChanges : List Mode → Nat
  | a :: b :: rest => (if a = b then 0 else 1) + modeChanges (b :: rest)
  | _ => 0

/-! ### Upload pipeline: `do_upload`, `uploader_thread_fn`, `retry_scanner_thread_fn` -/

/-- Outcome of one `requests.post` delivery attempt: either an HTTP
response with a status code, or an exception (timeout / connection
error), which the source catches. -/
inductive UploadOutcome where
  | status (code : Nat)
  | exn
deriving DecidableEq, Repr

/-- Embedding of `do_upload` (camera_node.py lines 301-316): returns
`True` exactly when the response status code is 200; any other status
and any exception yield `False`. -/
def do_upload (o : UploadOutcome) : Bool :=
  match o with
  | UploadOutcome.status code => code = 200
  | UploadOutcome.exn => false

/-- Where a given clip file currently lives: the scratch directory
(`/tmp`, where `record_clip` writes it), the retry store (`QUEUE_DIR`),
or nowhere (deleted after confirmed delivery). -/
inductive ClipLoc where
  | scratch
  | retryStore
  | deleted
deriving DecidableEq, Repr

/-- Per-clip delivery state: the file's location and how many successful
remote deliveries of it have been observed. -/
structure UploadState where
  loc : ClipLoc
  successes : Nat
deriving DecidableEq, Repr

/-- Embedding of one iteration of `uploader_thread_fn`
(camera_node.py lines 318-347) for one dequeued clip: run `do_upload`;
on success `file_path.unlink(...)` deletes the file; on failure
`shutil.move` relocates it into `QUEUE_DIR` (a no-op when it is already
there). -/
def uploaderStep (s : UploadState) (o : UploadOutcome) : UploadState :=
  if do_upload o then
    { loc := ClipLoc.deleted, successes := s.successes + 1 }
  else
    { s with loc := ClipLoc.retryStore }

/-- Embedding of one `retry_scanner_thread_fn` pass
(camera_node.py lines 349-368) restricted to one clip: if the clip's
file is present in `QUEUE_DIR` it is re-submitted to the uploader's
work queue (second component `true`); the scan itself moves no file. -/
def retryScan (s : UploadState) : UploadState × Bool :=
  if s.loc = ClipLoc.retryStore then (s, true) else (s, false)

/-! ### Recording: `record_clip` and the main-loop capture handler -/

/-- Environment for `record_clip`: whether `picam2.start_recording`,
`picam2.stop_recording` and the `ffmpeg` remux succeed. -/
structure RecEnv where
  startRecordingOk : Bool
  stopRecordingOk : Bool
  remuxOk : Bool
deriving DecidableEq, Repr

/-- How a `record_clip` call terminates: it returns the mp4 path, it
raises `CalledProcessError` from the remux, or it propagates an
exception raised by `start_recording` / `stop_recording`. -/
inductive RecOutcome where
  | clipSaved
  | remuxError
  | encodeError
deriving DecidableEq, Repr

/-- Result of a `record_clip` call: how it exited, whether the
intermediate `.h264` file is still on disk afterwards, and whether the
final `.mp4` was produced. -/
structure RecResult where
  outcome : RecOutcome
  h264Remains : Bool
  mp4Saved : Bool
deriving DecidableEq, Repr

/-- Embedding of `record_clip` (camera_node.py lines 373-398).
`start_recording(encoder, str(h264))` begins writing the `.h264` output
file, so once it has succeeded the file exists on disk.  The
`stop_recording()` call sits before the `try`/`finally` block, so an
exception it raises propagates without reaching the `h264.unlink`
cleanup.  The remux runs inside `try`: on `CalledProcessError` the
`.h264` is unlinked and the exception re-raised; the `finally` arm
unlinks the `.h264` on the success path as well. -/
def record_clip (env : RecEnv) : RecResult :=
  if !env.startRecordingOk then
    -- start_recording raised before the output file was written
    { outcome := RecOutcome.encodeError, h264Remains := false, mp4Saved := false }
  else if !env.stopRecordingOk then
    -- the encoder wrote the .h264; stop_recording raised before the
    -- try/finally cleanup was reached
    { outcome := RecOutcome.encodeError, h264Remains := true, mp4Saved := false }
  else if env.remuxOk then
    { outcome := RecOutcome.clipSaved, h264Remains := false, mp4Saved := true }
  else
    { outcome := RecOutcome.remuxError, h264Remains := false, mp4Saved := false }

/-- Embedding of the `main` loop's capture section
(camera_node.py lines 710-729): `led.set_mode("recording")`, call
`record_clip`; any exception is caught by `except Exception` (the loop
continues); both on success (after enqueueing the clip) and on failure
the LED is set from retry-queue occupancy.  `MODE` is never written on
this path. -/
def mainCaptureIteration (env : RecEnv) (s : SysState) : SysState × RecResult :=
  ({ s with ledMode := ledAfterRecord s.queueNonEmpty }, record_clip env)

/-! ### Trigger loop debounce (camera_node.py lines 699-702) -/

/-- Debounce state of the trigger loop: `last_trigger_ms` (initially 0)
and the number of capture attempts made. -/
structure TrigState where
  lastTriggerMs : Nat
  captures : Nat
deriving DecidableEq, Repr

/-- One sensor sample through the trigger logic of `main`
(camera_node.py lines 699-731): if `dist < THRESH_MM` and
`now_ms - last_trigger_ms > DEBOUNCE_MS` (strict), `last_trigger_ms` is
updated to `now_ms`; then the free-space guard runs, and only when it
passes is a capture attempted.  A non-qualifying sample changes
nothing. -/
def triggerStep (threshMM debounceMS : Nat) (freeOk : Bool) (s : TrigState)
    (nowMs dist : Nat) : TrigState :=
  if dist < threshMM then
    if nowMs - s.lastTriggerMs > debounceMS then
      if freeOk then
        { lastTriggerMs := nowMs, captures := s.captures + 1 }
      else
        { lastTriggerMs := nowMs, captures := s.captures }
    else s
  else s

/-- Fold a list of `(now_ms, dist)` samples through the trigger loop. -/
def triggerRun (threshMM debounceMS : Nat) (freeOk : Bool) (s : TrigState)
    (samples : List (Nat × Nat)) : TrigState :=
  samples.foldl (fun st p => triggerStep threshMM debounceMS freeOk st p.1 p.2) s

/-! ### FrameRelay: `_FrameBus` (camera_node.py lines 418-452) -/

/-- State of the `_FrameBus` singleton.  `self._q` either is `None`
(detached) or holds a `queue.Queue(maxsize=1)` object; `qId` models the
identity of the installed queue object (each `attach` creates a fresh
one) and `qBuf` its contents. -/
structure FrameBus where
  qId : Option Nat
  qBuf : List Nat
  nextId : Nat
deriving DecidableEq, Repr

/-- `_FrameBus.attach`: drain whatever queue is installed, install a
fresh empty `queue.Queue(maxsize=1)` and return it (here: its
identity). -/
def FrameBus.attach (b : FrameBus) : FrameBus × Nat :=
  ({ qId := some b.nextId, qBuf := [], nextId := b.nextId + 1 }, b.nextId)

/-- `_FrameBus.detach`: unconditionally `self._q = None`.  Note the
method takes no argument identifying the caller's queue: any caller
releases whatever queue is currently installed. -/
def FrameBus.detach (b : FrameBus) : FrameBus :=
  { b with qId := none }

/-- `_FrameBus.write`: if no queue is installed the frame is silently
discarded; otherwise, if the single-slot queue is full the buffered
frame is dropped (`get_nowait`) and the new frame stored
(`put_nowait`). -/
def FrameBus.write (b : FrameBus) (x : Nat) : FrameBus :=
  match b.qId with
  | none => b
  | some _ =>
      { b with qBuf := if b.qBuf.length ≥ 1 then b.qBuf.drop 1 ++ [x] else b.qBuf ++ [x] }

/-! ### Live-session timeout semantics (camera_node.py lines 595-655)

A small event semantics for the interplay of the control endpoints, the
encoder callback `_MJPEGOutput.outputframe`, and the streaming handler
loop of `LiveHandler.do_GET` on `/api/live/mjpeg`: the only place the
inactivity timeout `now - LIVE_LAST_ACTIVITY > LIVE_TIMEOUT_SEC` is
checked is one iteration of that handler loop. -/

/-- `LIVE_TIMEOUT_SEC = 120`. -/
def LIVE_TIMEOUT_SEC : Nat := 120

/-- State for the live-timeout semantics: the monotonic clock (seconds),
the mode, `LIVE_LAST_ACTIVITY` (set by `outputframe` each time the
encoder produces a frame), whether an mjpeg streaming handler is
currently attached, and how many `_exit_live` invocations have
happened. -/
structure LiveSys where
  clock : Nat
  mode : Mode
  lastActivity : Nat
  consumer : Bool
  exitCalls : Nat
deriving DecidableEq, Repr

/-- Events of the live-timeout semantics.  `postStart` / `postStop` are
the POST endpoints (transitions assumed to succeed); `encoderFrame` is
one `_MJPEGOutput.outputframe` callback; `openStream` is a GET on
`/api/live/mjpeg` reaching `FRAMEBUS.attach()`; `streamIter` is one
iteration of that handler's `while True` loop; `tick` advances the
clock. -/
inductive LiveEvent where
  | postStart
  | postStop
  | encoderFrame
  | openStream
  | streamIter
  | tick (dt : Nat)
deriving DecidableEq, Repr

/-- One step of the live-timeout semantics, following the source:
`postStart` enters Live (setting `LIVE_LAST_ACTIVITY`) unless already
Live; `postStop` calls `_exit_live`; `encoderFrame` refreshes
`LIVE_LAST_ACTIVITY` while Live; `openStream` enters Live and attaches
the consumer; `streamIter` checks `now - LIVE_LAST_ACTIVITY >
LIVE_TIMEOUT_SEC` and, when exceeded, calls `_exit_live` and detaches —
this check exists nowhere outside the streaming handler. -/
def liveStep (s : LiveSys) : LiveEvent → LiveSys
  | LiveEvent.tick dt => { s with clock := s.clock + dt }
  | LiveEvent.postStart =>
      if s.mode = Mode.LIVE then s
      else { s with mode := Mode.LIVE, lastActivity := s.clock }
  | LiveEvent.postStop =>
      if s.mode = Mode.RECORD then s
      else { s with mode := Mode.RECORD, exitCalls := s.exitCalls + 1 }
  | LiveEvent.encoderFrame =>
      if s.mode = Mode.LIVE then { s with lastActivity := s.clock } else s
  | LiveEvent.openStream =>
      let s1 := if s.mode = Mode.LIVE then s
                else { s with mode := Mode.LIVE, lastActivity := s.clock }
      { s1 with consumer := true }
  | LiveEvent.streamIter =>
      if s.consumer then
        if s.clock - s.lastActivity > LIVE_TIMEOUT_SEC then
          { s with mode := Mode.RECORD, consumer := false, exitCalls := s.exitCalls + 1 }
        else s
      else s

/-- Run a list of events through `liveStep`. -/
def liveRun (s : LiveSys) (es : List LiveEvent) : LiveSys :=
  es.foldl liveStep s

/-- The initial state of the process: clock 0, Record mode, no consumer. -/
def liveInit : LiveSys :=
  { clock := 0, mode := Mode.RECORD, lastActivity := 0, consumer := false, exitCalls := 0 }

/-- Events available to a client that entered Live via
`POST /api/live/start` and never opened the frame stream: time passes,
the encoder produces frames, further start requests arrive — but no
streaming handler iteration and no stop request occur. -/
def nonStreamEvent : LiveEvent → Bool
  | LiveEvent.postStart => true
  | LiveEvent.encoderFrame => true
  | LiveEvent.tick _ => true
  | _ => false

/-! ## Sample states used by witnesses and counterexamples -/

/-- A node in Record mode: LED idle, retry queue empty, device running
the record configuration. -/
def sampleRecord : SysState :=
  { mode := Mode.RECORD, ledMode := LedMode.idle, queueNonEmpty := false,
    liveLastError := "", dev := recordRunning }

/-- A node in Live mode: LED live, retry queue empty, device encoding
under the live configuration. -/
def sampleLive : SysState :=
  { mode := Mode.LIVE, ledMode := LedMode.live, queueNonEmpty := false,
    liveLastError := "", dev := liveEncoding }

/-! ## C1 — stop-live responses on `_exit_live` failure -/

/-- C1, counterexample: in Live mode with both `_exit_live`
reconfiguration attempts failing, `_exit_live` returns failure, yet the
`POST /api/live/stop` handler answers with `ok` set to `true` — the
claim that a failed stop is never answered with ok true is false. -/
theorem c1_counterexample :
    (exitLive ⟨false, false⟩ sampleLive).1 = false ∧
    (do_POST "/api/live/stop" ⟨true, true, true⟩ ⟨false, false⟩ sampleLive).1
      = some { status := 200, ok := true, err := none, state := some "LIVE" } := by
  decide

/-- C1, amended: every `POST /api/live/stop` request is answered (the
stop path never raises) with HTTP 200, `ok:true` and no `error` field;
the outcome of `_exit_live` is reported only through the `state` field,
which is `"RECORD"` on success and `"LIVE"` on failure. -/
theorem c1_stop_always_ok (s : SysState) (eEnv : EnterEnv) (xEnv : ExitEnv) :
    (do_POST "/api/live/stop" eEnv xEnv s).1
      = some { status := 200, ok := true, err := none,
               state := some (if (exitLive xEnv s).1 then "RECORD" else "LIVE") } := by
  rfl

/-! ## C2 — `_enter_live` failure rollback -/

/-- C2, counterexample: starting from Record mode with the LED at idle,
when the Live start fails and the rollback also fails, `_enter_live`
returns failure but never touches the LED: the status indicator stays
at idle, not Error, refuting the claim that the indicator is left at
Error on unrecoverable rollback failure. -/
theorem c2_counterexample :
    (enterLive ⟨true, false, false⟩ sampleRecord).1 = EnterResult.returned false ∧
    (enterLive ⟨true, false, false⟩ sampleRecord).2.1.dev
      = DevState.unknownAfterFailure ∧
    (enterLive ⟨true, false, false⟩ sampleRecord).2.1.ledMode = LedMode.idle ∧
    LedMode.idle ≠ LedMode.error := by
  decide

/-- C2, amended: `_enter_live` from Record has two distinct failure
paths.  (1) When the Live configuration is applied but the guarded
start of the encode session fails, the operation attempts the rollback
(reconfigure and restart Record: the attempted-operation trace contains
`configureRecord` and `start`), the mode stays Record, and the failure
is surfaced (the call returns `False` and `POST /api/live/start`
answers 500 with `ok:false` and the recorded error); the device is back
running the record configuration if the rollback succeeds and left
unusable if the rollback itself also fails — but in both cases the
status indicator is left unchanged, not set to Error.  (2) When the
unguarded reconfiguration block itself raises (line 489), the exception
propagates out of `_enter_live` uncaught: no rollback is attempted, no
failure value is returned, and no 500 response is produced — the
connection is dropped with no JSON body — leaving the device unusable,
the mode at Record, and the status indicator again unchanged. -/
theorem c2_enter_failure (s : SysState) (e1 e2 : EnterEnv) (xEnv : ExitEnv)
    (hm : s.mode = Mode.RECORD)
    (hc1 : e1.configureOk = true) (hs1 : e1.startOk = false)
    (hc2 : e2.configureOk = false) :
    (enterLive e1 s).1 = EnterResult.returned false ∧
    (enterLive e1 s).2.1.mode = Mode.RECORD ∧
    (enterLive e1 s).2.1.ledMode = s.ledMode ∧
    DeviceOp.configureRecord ∈ (enterLive e1 s).2.2 ∧
    DeviceOp.start ∈ (enterLive e1 s).2.2 ∧
    (e1.recoverOk = true → (enterLive e1 s).2.1.dev = recordRunning) ∧
    (e1.recoverOk = false →
      (enterLive e1 s).2.1.dev = DevState.unknownAfterFailure) ∧
    (do_POST "/api/live/start" e1 xEnv s).1
      = some { status := 500, ok := false,
               err := some "start_recording failed", state := none } ∧
    (enterLive e2 s).1 = EnterResult.raised ∧
    (enterLive e2 s).2.1.mode = Mode.RECORD ∧
    (enterLive e2 s).2.1.ledMode = s.ledMode ∧
    DeviceOp.configureRecord ∉ (enterLive e2 s).2.2 ∧
    (enterLive e2 s).2.1.dev = DevState.unknownAfterFailure ∧
    (do_POST "/api/live/start" e2 xEnv s).1 = none := by
  cases e1 with
  | mk c1 s1 r1 =>
      cases e2 with
      | mk c2 s2 r2 =>
          cases hc1
          cases hs1
          cases hc2
          cases r1 <;>
            simp [enterLive, do_POST, orDefault, hm]

/-- C2, witness: the amended theorem applied to the sample Record
state, with a failing guarded start plus failing rollback for the first
path and a failing unguarded configuration for the second. -/
theorem c2_enter_failure_witness :
    (enterLive ⟨true, false, false⟩ sampleRecord).1 = EnterResult.returned false ∧
    (enterLive ⟨true, false, false⟩ sampleRecord).2.1.mode = Mode.RECORD ∧
    (enterLive ⟨true, false, false⟩ sampleRecord).2.1.ledMode
      = sampleRecord.ledMode ∧
    DeviceOp.configureRecord ∈ (enterLive ⟨true, false, false⟩ sampleRecord).2.2 ∧
    DeviceOp.start ∈ (enterLive ⟨true, false, false⟩ sampleRecord).2.2 ∧
    ((⟨true, false, false⟩ : EnterEnv).recoverOk = true →
      (enterLive ⟨true, false, false⟩ sampleRecord).2.1.dev = recordRunning) ∧
    ((⟨true, false, false⟩ : EnterEnv).recoverOk = false →
      (enterLive ⟨true, false, false⟩ sampleRecord).2.1.dev
        = DevState.unknownAfterFailure) ∧
    (do_POST "/api/live/start" ⟨true, false, false⟩ ⟨true, true⟩ sampleRecord).1
      = some { status := 500, ok := false,
               err := some "start_recording failed", state := none } ∧
    (enterLive ⟨false, true, true⟩ sampleRecord).1 = EnterResult.raised ∧
    (enterLive ⟨false, true, true⟩ sampleRecord).2.1.mode = Mode.RECORD ∧
    (enterLive ⟨false, true, true⟩ sampleRecord).2.1.ledMode
      = sampleRecord.ledMode ∧
    DeviceOp.configureRecord ∉ (enterLive ⟨false, true, true⟩ sampleRecord).2.2 ∧
    (enterLive ⟨false, true, true⟩ sampleRecord).2.1.dev
      = DevState.unknownAfterFailure ∧
    (do_POST "/api/live/start" ⟨false, true, true⟩ ⟨true, true⟩ sampleRecord).1
      = none :=
  c2_enter_failure sampleRecord ⟨true, false, false⟩ ⟨false, true, true⟩
    ⟨true, true⟩ rfl rfl rfl rfl

/-! ## C3 — the inactivity timeout and abandoned Live sessions -/

/-- `liveRun` unfolds one event at a time. -/
theorem liveRun_cons (t : LiveSys) (e : LiveEvent) (es : List LiveEvent) :
    liveRun t (e :: es) = liveRun (liveStep t e) es := rfl

/-- Events outside the streaming handler (and not stop requests) never
leave Live mode and never invoke `_exit_live`. -/
theorem liveRun_nonStream (es : List LiveEvent) :
    ∀ t : LiveSys, t.mode = Mode.LIVE → es.all nonStreamEvent = true →
      (liveRun t es).mode = Mode.LIVE ∧ (liveRun t es).exitCalls = t.exitCalls := by
  induction es with
  | nil => intro t ht _; exact ⟨ht, rfl⟩
  | cons e rest ih =>
      intro t ht hall
      rw [List.all_cons, Bool.and_eq_true] at hall
      obtain ⟨he, hrest⟩ := hall
      have hstep : (liveStep t e).mode = Mode.LIVE ∧
          (liveStep t e).exitCalls = t.exitCalls := by
        cases e with
        | postStart => simp [liveStep, ht]
        | encoderFrame => simp [liveStep, ht]
        | tick dt => simp [liveStep, ht]
        | postStop => simp [nonStreamEvent] at he
        | openStream => simp [nonStreamEvent] at he
        | streamIter => simp [nonStreamEvent] at he
      rw [liveRun_cons]
      have := ih (liveStep t e) hstep.1 hrest
      exact ⟨this.1, this.2.trans hstep.2⟩

/-- C3, counterexample: a client enters Live via `POST /api/live/start`
and never opens the frame stream; 1000 seconds later (far beyond the
120-second timeout) the node is still in Live mode and `_exit_live` has
never been invoked — the claim that the device is never left in Live
mode indefinitely by such a client is false. -/
theorem c3_counterexample :
    (liveRun liveInit [LiveEvent.postStart, LiveEvent.tick 1000]).mode = Mode.LIVE ∧
    (liveRun liveInit [LiveEvent.postStart, LiveEvent.tick 1000]).exitCalls = 0 ∧
    (liveRun liveInit [LiveEvent.postStart, LiveEvent.tick 1000]).consumer = false ∧
    (liveRun liveInit [LiveEvent.postStart, LiveEvent.tick 1000]).clock -
      (liveRun liveInit [LiveEvent.postStart, LiveEvent.tick 1000]).lastActivity
        > LIVE_TIMEOUT_SEC := by
  decide

/-- C3, amended: the inactivity check exists only inside the active
mjpeg streaming handler's loop: when such a handler is attached and an
iteration observes that more than 120 seconds elapsed since the encoder
last produced a frame, it calls `_exit_live` and the node reverts to
Record; but a Live session entered via `POST /api/live/start` with no
stream consumer is never reverted automatically — under any sequence of
non-handler events (start requests, encoder frames, passing time) the
node stays in Live mode with `_exit_live` never invoked. -/
theorem c3_timeout_only_in_handler (s : LiveSys) (es : List LiveEvent)
    (hc : s.consumer = true) (hto : s.clock - s.lastActivity > LIVE_TIMEOUT_SEC)
    (hes : es.all nonStreamEvent = true) :
    (liveStep s LiveEvent.streamIter).mode = Mode.RECORD ∧
    (liveStep s LiveEvent.streamIter).exitCalls = s.exitCalls + 1 ∧
    (liveStep s LiveEvent.streamIter).consumer = false ∧
    (liveRun (liveStep liveInit LiveEvent.postStart) es).mode = Mode.LIVE ∧
    (liveRun (liveStep liveInit LiveEvent.postStart) es).exitCalls = 0 := by
  have hstart : (liveStep liveInit LiveEvent.postStart).mode = Mode.LIVE := by decide
  have h := liveRun_nonStream es (liveStep liveInit LiveEvent.postStart) hstart hes
  refine ⟨?_, ?_, ?_, h.1, h.2⟩ <;> simp [liveStep, hc, hto]

/-- C3, witness: the amended theorem at a concrete over-timeout handler
state and a concrete non-handler event sequence. -/
theorem c3_timeout_only_in_handler_witness :
    (liveStep ⟨1000, Mode.LIVE, 0, true, 3⟩ LiveEvent.streamIter).mode = Mode.RECORD ∧
    (liveStep ⟨1000, Mode.LIVE, 0, true, 3⟩ LiveEvent.streamIter).exitCalls = 3 + 1 ∧
    (liveStep ⟨1000, Mode.LIVE, 0, true, 3⟩ LiveEvent.streamIter).consumer = false ∧
    (liveRun (liveStep liveInit LiveEvent.postStart)
      [LiveEvent.tick 300, LiveEvent.encoderFrame]).mode = Mode.LIVE ∧
    (liveRun (liveStep liveInit LiveEvent.postStart)
      [LiveEvent.tick 300, LiveEvent.encoderFrame]).exitCalls = 0 :=
  c3_timeout_only_in_handler ⟨1000, Mode.LIVE, 0, true, 3⟩
    [LiveEvent.tick 300, LiveEvent.encoderFrame] rfl (by decide) (by decide)

/-! ## C4 — which delivery outcomes count as success -/

/-- C4, counterexample: an HTTP 204 response is NOT treated as a
success by `do_upload` — the clip file is preserved and moved into the
retry store rather than deleted — refuting the claim that the success
set is {200, 204}. -/
theorem c4_counterexample :
    do_upload (UploadOutcome.status 204) = false ∧
    (uploaderStep ⟨ClipLoc.scratch, 0⟩ (UploadOutcome.status 204)).loc
      = ClipLoc.retryStore ∧
    (uploaderStep ⟨ClipLoc.scratch, 0⟩ (UploadOutcome.status 204)).successes = 0 := by
  decide

/-- C4, amended: a delivery attempt is treated as a success (source
file deleted) exactly when the HTTP response status is 200; every other
outcome — 204 and 507 included, as well as connection/timeout errors —
is retryable: the clip file is preserved and moved into the
RetryStore. -/
theorem c4_success_iff_200 (o1 o2 : UploadOutcome) (s : UploadState)
    (h : do_upload o2 = false) :
    (do_upload o1 = true ↔ o1 = UploadOutcome.status 200) ∧
    uploaderStep s (UploadOutcome.status 200)
      = { loc := ClipLoc.deleted, successes := s.successes + 1 } ∧
    (uploaderStep s o2).loc = ClipLoc.retryStore ∧
    (uploaderStep s o2).successes = s.successes := by
  refine ⟨?_, ?_, ?_, ?_⟩
  · cases o1 with
    | status code => simp [do_upload]
    | exn => simp [do_upload]
  · simp [uploaderStep, do_upload]
  · simp [uploaderStep, h]
  · simp [uploaderStep, h]

/-- C4, witness: the amended theorem at status 204 for the success
characterization and a connection error for the retry branch. -/
theorem c4_success_iff_200_witness :
    (do_upload (UploadOutcome.status 204) = true
      ↔ UploadOutcome.status 204 = UploadOutcome.status 200) ∧
    uploaderStep ⟨ClipLoc.scratch, 3⟩ (UploadOutcome.status 200)
      = { loc := ClipLoc.deleted, successes := 3 + 1 } ∧
    (uploaderStep ⟨ClipLoc.scratch, 3⟩ UploadOutcome.exn).loc = ClipLoc.retryStore ∧
    (uploaderStep ⟨ClipLoc.scratch, 3⟩ UploadOutcome.exn).successes = 3 :=
  c4_success_iff_200 (UploadOutcome.status 204) UploadOutcome.exn
    ⟨ClipLoc.scratch, 3⟩ rfl

/-! ## C5 — fail-once-then-succeed retry round trip -/

/-- C5: a clip whose first delivery attempt fails (any non-success
outcome) is moved into the retry store, re-submitted by the retry
scanner, and after the second attempt succeeds with status 200 the
clip's file is gone from both the scratch directory and the retry
store, with exactly one successful remote delivery observed. -/
theorem c5_retry_roundtrip (o1 : UploadOutcome) (h : do_upload o1 = false) :
    (uploaderStep ⟨ClipLoc.scratch, 0⟩ o1).loc = ClipLoc.retryStore ∧
    (retryScan (uploaderStep ⟨ClipLoc.scratch, 0⟩ o1)).2 = true ∧
    uploaderStep (retryScan (uploaderStep ⟨ClipLoc.scratch, 0⟩ o1)).1
        (UploadOutcome.status 200)
      = { loc := ClipLoc.deleted, successes := 1 } := by
  have h200 : do_upload (UploadOutcome.status 200) = true := rfl
  simp [uploaderStep, retryScan, h, h200]

/-- C5, witness: the round trip with a concrete first failure
(status 507, storage exhausted on the hub). -/
theorem c5_retry_roundtrip_witness :
    (uploaderStep ⟨ClipLoc.scratch, 0⟩ (UploadOutcome.status 507)).loc
      = ClipLoc.retryStore ∧
    (retryScan (uploaderStep ⟨ClipLoc.scratch, 0⟩ (UploadOutcome.status 507))).2
      = true ∧
    uploaderStep
        (retryScan (uploaderStep ⟨ClipLoc.scratch, 0⟩ (UploadOutcome.status 507))).1
        (UploadOutcome.status 200)
      = { loc := ClipLoc.deleted, successes := 1 } :=
  c5_retry_roundtrip (UploadOutcome.status 507) rfl

/-! ## C6 — idempotence of `_enter_live` and `_exit_live` -/

/-- C6: `_enter_live` when already Live returns success immediately
with no state change and no device operation; `_exit_live` when already
Record is likewise a success no-op; and two consecutive (successful)
calls of either transition produce exactly one mode change along the
trajectory, not two. -/
theorem c6_idempotent (s t : SysState) (eEnv : EnterEnv) (xEnv : ExitEnv)
    (hs : s.mode = Mode.LIVE) (ht : t.mode = Mode.RECORD)
    (hec : eEnv.configureOk = true) (he : eEnv.startOk = true)
    (hx : xEnv.firstOk = true) :
    enterLive eEnv s = (EnterResult.returned true, s, []) ∧
    exitLive xEnv t = (true, t, []) ∧
    modeChanges [t.mode, ((enterLive eEnv t).2.1).mode,
      ((enterLive eEnv ((enterLive eEnv t).2.1)).2.1).mode] = 1 ∧
    enterLive eEnv ((enterLive eEnv t).2.1)
      = (EnterResult.returned true, (enterLive eEnv t).2.1, []) ∧
    modeChanges [s.mode, ((exitLive xEnv s).2.1).mode,
      ((exitLive xEnv ((exitLive xEnv s).2.1)).2.1).mode] = 1 ∧
    exitLive xEnv ((exitLive xEnv s).2.1) = (true, (exitLive xEnv s).2.1, []) := by
  have keyEnter : ∀ u : SysState, u.mode = Mode.LIVE →
      enterLive eEnv u = (EnterResult.returned true, u, []) := by
    intro u hu; simp [enterLive, hu]
  have keyExit : ∀ u : SysState, u.mode = Mode.RECORD → exitLive xEnv u = (true, u, []) := by
    intro u hu; simp [exitLive, hu]
  have hEnterMode : ((enterLive eEnv t).2.1).mode = Mode.LIVE := by
    simp [enterLive, ht, hec, he]
  have hExitMode : ((exitLive xEnv s).2.1).mode = Mode.RECORD := by
    simp [exitLive, hs, hx]
  have hEnter2 := keyEnter _ hEnterMode
  have hExit2 := keyExit _ hExitMode
  refine ⟨keyEnter s hs, keyExit t ht, ?_, hEnter2, ?_, hExit2⟩
  · rw [ht, hEnterMode, hEnter2]
    simp [modeChanges, hEnterMode]
  · rw [hs, hExitMode, hExit2]
    simp [modeChanges, hExitMode]

/-- C6, witness: idempotence at the sample Live and Record states with
successful transition environments. -/
theorem c6_idempotent_witness :
    enterLive ⟨true, true, true⟩ sampleLive
      = (EnterResult.returned true, sampleLive, []) ∧
    exitLive ⟨true, true⟩ sampleRecord = (true, sampleRecord, []) ∧
    modeChanges [sampleRecord.mode,
      ((enterLive ⟨true, true, true⟩ sampleRecord).2.1).mode,
      ((enterLive ⟨true, true, true⟩
        ((enterLive ⟨true, true, true⟩ sampleRecord).2.1)).2.1).mode] = 1 ∧
    enterLive ⟨true, true, true⟩ ((enterLive ⟨true, true, true⟩ sampleRecord).2.1)
      = (EnterResult.returned true,
         (enterLive ⟨true, true, true⟩ sampleRecord).2.1, []) ∧
    modeChanges [sampleLive.mode, ((exitLive ⟨true, true⟩ sampleLive).2.1).mode,
      ((exitLive ⟨true, true⟩
        ((exitLive ⟨true, true⟩ sampleLive).2.1)).2.1).mode] = 1 ∧
    exitLive ⟨true, true⟩ ((exitLive ⟨true, true⟩ sampleLive).2.1)
      = (true, (exitLive ⟨true, true⟩ sampleLive).2.1, []) :=
  c6_idempotent sampleLive sampleRecord ⟨true, true, true⟩ ⟨true, true⟩
    rfl rfl rfl rfl rfl

/-! ## C7 — trigger-loop debounce -/

/-- C7: with the default 1000 mm threshold and 200 ms debounce window,
two qualifying (below-threshold) readings 50 ms apart produce exactly
one capture attempt, two qualifying readings 250 ms apart produce
exactly two, and a qualifying reading triggers exactly when the current
time minus the last trigger time strictly exceeds the debounce
window. -/
theorem c7_debounce (t1 d1 d2 : Nat) (h1 : d1 < 1000) (h2 : d2 < 1000)
    (ht : 200 < t1) :
    (triggerRun 1000 200 true ⟨0, 0⟩ [(t1, d1), (t1 + 50, d2)]).captures = 1 ∧
    (triggerRun 1000 200 true ⟨0, 0⟩ [(t1, d1), (t1 + 250, d2)]).captures = 2 ∧
    (∀ nowMs last c d, d < 1000 →
      ((triggerStep 1000 200 true ⟨last, c⟩ nowMs d).captures = c + 1
        ↔ 200 < nowMs - last)) := by
  have hfirst : triggerStep 1000 200 true ⟨0, 0⟩ t1 d1 = ⟨t1, 1⟩ := by
    simp [triggerStep, h1]
    omega
  refine ⟨?_, ?_, ?_⟩
  · show (triggerStep 1000 200 true (triggerStep 1000 200 true ⟨0, 0⟩ t1 d1)
      (t1 + 50) d2).captures = 1
    rw [hfirst]
    simp [triggerStep, h2]
  · show (triggerStep 1000 200 true (triggerStep 1000 200 true ⟨0, 0⟩ t1 d1)
      (t1 + 250) d2).captures = 2
    rw [hfirst]
    simp [triggerStep, h2]
  · intro nowMs last c d hd
    by_cases hq : nowMs - last > 200
    · simp [triggerStep, hd, hq]
    · simp [triggerStep, hd, hq]

/-- C7, witness: the debounce behaviour at concrete readings (distance
800 mm, first sample at 100000 ms). -/
theorem c7_debounce_witness :
    (triggerRun 1000 200 true ⟨0, 0⟩ [(100000, 800), (100000 + 50, 800)]).captures = 1 ∧
    (triggerRun 1000 200 true ⟨0, 0⟩ [(100000, 800), (100000 + 250, 800)]).captures = 2 ∧
    (∀ nowMs last c d, d < 1000 →
      ((triggerStep 1000 200 true ⟨last, c⟩ nowMs d).captures = c + 1
        ↔ 200 < nowMs - last)) :=
  c7_debounce 100000 800 800 (by decide) (by decide) (by decide)

/-! ## C8 — cleanup of the intermediate `.h264` artifact -/

/-- C8, counterexample: when `picam2.stop_recording()` raises, the
exception propagates before `record_clip` reaches its cleanup block,
and the `.h264` intermediate file written by the encode session is left
on disk — refuting the claim that every exit path removes it. -/
theorem c8_counterexample :
    record_clip ⟨true, false, true⟩
      = { outcome := RecOutcome.encodeError, h264Remains := true, mp4Saved := false } ∧
    (record_clip ⟨true, false, true⟩).h264Remains = true := by
  decide

/-- C8, amended: on the exit paths that reach the remux stage —
successful remux and remux failure — the `.h264` intermediate is
removed; on remux failure the partial raw artifact is discarded, the
error is reported (the exception is re-raised and caught by the main
loop) and the mode remains Record.  But an exception from stopping the
encode session exits `record_clip` without removing the `.h264`
file. -/
theorem c8_remux_paths_clean (env : RecEnv) (s : SysState)
    (h1 : env.startRecordingOk = true) (h2 : env.stopRecordingOk = true) :
    (record_clip env).h264Remains = false ∧
    (env.remuxOk = false → (record_clip env).outcome = RecOutcome.remuxError ∧
      (record_clip env).mp4Saved = false) ∧
    (env.remuxOk = true → (record_clip env).outcome = RecOutcome.clipSaved ∧
      (record_clip env).mp4Saved = true) ∧
    (mainCaptureIteration env s).1.mode = s.mode := by
  cases env with
  | mk a b c =>
      cases h1
      cases h2
      cases c <;> simp [record_clip, mainCaptureIteration]

/-- C8, witness: the amended theorem on a run whose remux fails,
starting from the sample Record state. -/
theorem c8_remux_paths_clean_witness :
    (record_clip ⟨true, true, false⟩).h264Remains = false ∧
    ((⟨true, true, false⟩ : RecEnv).remuxOk = false →
      (record_clip ⟨true, true, false⟩).outcome = RecOutcome.remuxError ∧
      (record_clip ⟨true, true, false⟩).mp4Saved = false) ∧
    ((⟨true, true, false⟩ : RecEnv).remuxOk = true →
      (record_clip ⟨true, true, false⟩).outcome = RecOutcome.clipSaved ∧
      (record_clip ⟨true, true, false⟩).mp4Saved = true) ∧
    (mainCaptureIteration ⟨true, true, false⟩ sampleRecord).1.mode
      = sampleRecord.mode :=
  c8_remux_paths_clean ⟨true, true, false⟩ sampleRecord rfl rfl

/-! ## C9 — FrameSlot holds at most one frame, latest wins -/

/-- C9: the frame slot holds at most one frame at every instant (a
write on a buffer holding at most one frame leaves at most one frame);
a write onto a full slot drops the buffered frame in favour of the new
one; and after writes F1, F2, F3 reach an attached slot faster than the
consumer reads, the slot holds exactly [F3] — the consumer observes
only a strict suffix of the written frames ending in F3, never all
three. -/
theorem c9_latest_wins (f1 f2 f3 x : Nat) (b : FrameBus) (h : b.qBuf.length ≤ 1) :
    (b.write x).qBuf.length ≤ 1 ∧
    ((((FrameBus.attach ⟨none, [], 0⟩).1.write f1).write f2).write f3).qBuf = [f3] ∧
    FrameBus.write ⟨some 0, [f1], 1⟩ f2 = ⟨some 0, [f2], 1⟩ ∧
    List.IsSuffix [f3] [f1, f2, f3] ∧ [f3] ≠ [f1, f2, f3] := by
  refine ⟨?_, rfl, rfl, ⟨[f1, f2], rfl⟩, by simp⟩
  unfold FrameBus.write
  cases hq : b.qId with
  | none => simpa using h
  | some i =>
      by_cases hl : b.qBuf.length ≥ 1
      · simpa [hl] using h
      · simp [hl]
        exact List.length_eq_zero.mp (by omega)

/-- C9, witness: the slot invariant and latest-wins behaviour at a
concrete attached bus holding one frame. -/
theorem c9_latest_wins_witness :
    ((⟨some 0, [7], 1⟩ : FrameBus).write 9).qBuf.length ≤ 1 ∧
    ((((FrameBus.attach ⟨none, [], 0⟩).1.write 1).write 2).write 3).qBuf = [3] ∧
    FrameBus.write ⟨some 0, [1], 1⟩ 2 = ⟨some 0, [2], 1⟩ ∧
    List.IsSuffix [3] [1, 2, 3] ∧ [3] ≠ [1, 2, 3] :=
  c9_latest_wins 1 2 3 9 ⟨some 0, [7], 1⟩ (by decide)

/-! ## C10 — detach is unconditional -/

/-- C10: `_FrameBus.detach` takes no argument identifying the caller
and always clears the shared slot.  If consumer A attaches, consumer B
attaches (superseding A's channel), and the superseded A then runs its
detach, B's channel is released: every subsequent write is silently
discarded, until a new attach installs a fresh channel that receives
frames again. -/
theorem c10_detach_unconditional (f g : Nat) (b : FrameBus) :
    (FrameBus.detach b).qId = none ∧
    (FrameBus.attach ⟨none, [], 0⟩).2
      ≠ (FrameBus.attach (FrameBus.attach ⟨none, [], 0⟩).1).2 ∧
    (FrameBus.attach (FrameBus.attach ⟨none, [], 0⟩).1).1.qId
      = some (FrameBus.attach (FrameBus.attach ⟨none, [], 0⟩).1).2 ∧
    (FrameBus.detach (FrameBus.attach (FrameBus.attach ⟨none, [], 0⟩).1).1).qId
      = none ∧
    FrameBus.write
        (FrameBus.detach (FrameBus.attach (FrameBus.attach ⟨none, [], 0⟩).1).1) f
      = FrameBus.detach (FrameBus.attach (FrameBus.attach ⟨none, [], 0⟩).1).1 ∧
    (FrameBus.write
        (FrameBus.attach
          (FrameBus.detach
            (FrameBus.attach (FrameBus.attach ⟨none, [], 0⟩).1).1)).1 g).qBuf
      = [g] := by
  exact ⟨rfl, by decide, rfl, rfl, rfl, rfl⟩

end CameraNode
